import Mathlib

/-!
Shallow embedding of the `amp_email` Python SDK
(`src/sdk/python/src/amp_email/{models,client,exceptions}.py`) and proofs of
the specification claims about it.

The data model mirrors pydantic v2 semantics as exercised by this SDK:
construction from keyword arguments (the decoded JSON object), population of
aliased fields by alias only (`populate_by_name` is left at its default
`False`), extra keys ignored, `.dict()` serialization with its default
arguments (`by_alias=False`, `exclude_unset=False`, `exclude_none=False`).
The HTTP layer mirrors `AMPEmailClient._request` over a mocked transport
response, with `requests>=2.28` semantics where `response.json()` on an
unparseable body raises a `JSONDecodeError` that is a `RequestException`.
-/

set_option autoImplicit false

namespace AmpEmail

/-- JSON-like values: the payload dictionaries assembled by the client and
the decoded response bodies. Numbers are modelled as rationals; the SDK never
computes with them, it only carries them. -/
inductive JVal where
  | jnull
  | jbool (b : Bool)
  | jnum (q : Rat)
  | jstr (s : String)
  | jarr (elems : List JVal)
  | jobj (fields : List (String × JVal))

/-- Python `dict` lookup (`d.get(k)` / `k in d`): first binding wins. -/
def lookupKey (kvs : List (String × JVal)) (k : String) : Option JVal :=
  match kvs with
  | [] => none
  | (k2, v) :: rest => if k2 = k then some v else lookupKey rest k

@[simp] theorem lookupKey_nil (k : String) : lookupKey [] k = none := rfl

@[simp] theorem lookupKey_cons (k2 k : String) (v : JVal) (rest : List (String × JVal)) :
    lookupKey ((k2, v) :: rest) k = if k2 = k then some v else lookupKey rest k := rfl

/-! ### Enumerations (`models.py` lines 8-26)

`CampaignType`, `CampaignGoal` and `Urgency` are `str`-valued `Enum`s; pydantic
validates a field of such a type by matching the incoming string against the
declared value set. -/

inductive CampaignType where
  | abandonedCart | promotional | productLaunch | priceDrop | backInStock
deriving DecidableEq, Repr

def CampaignType.value : CampaignType → String
  | .abandonedCart => "abandoned_cart"
  | .promotional => "promotional"
  | .productLaunch => "product_launch"
  | .priceDrop => "price_drop"
  | .backInStock => "back_in_stock"

def CampaignType.ofValue (s : String) : Option CampaignType :=
  if s = "abandoned_cart" then some .abandonedCart
  else if s = "promotional" then some .promotional
  else if s = "product_launch" then some .productLaunch
  else if s = "price_drop" then some .priceDrop
  else if s = "back_in_stock" then some .backInStock
  else none

inductive CampaignGoal where
  | acquisition | retention | engagement | conversion
deriving DecidableEq, Repr

def CampaignGoal.value : CampaignGoal → String
  | .acquisition => "acquisition"
  | .retention => "retention"
  | .engagement => "engagement"
  | .conversion => "conversion"

def CampaignGoal.ofValue (s : String) : Option CampaignGoal :=
  if s = "acquisition" then some .acquisition
  else if s = "retention" then some .retention
  else if s = "engagement" then some .engagement
  else if s = "conversion" then some .conversion
  else none

inductive Urgency where
  | low | medium | high
deriving DecidableEq, Repr

def Urgency.value : Urgency → String
  | .low => "low"
  | .medium => "medium"
  | .high => "high"

def Urgency.ofValue (s : String) : Option Urgency :=
  if s = "low" then some .low
  else if s = "medium" then some .medium
  else if s = "high" then some .high
  else none

/-! ### Pydantic field validation machinery

A model is constructed from keyword arguments, i.e. an association list of
JSON values. Validation of each field either produces the typed value or
records the field's error location (pydantic's `loc`, which for an aliased
field is the alias). Errors of several fields are collected, as pydantic's
`ValidationError` reports all of them. -/

/-- Result of validating one field or a whole model: the value, or the list
of error locations of a `pydantic.ValidationError`. -/
abbrev VResult (α : Type) := Except (List String) α

/-- Applicative combination collecting errors from both sides, mirroring how
pydantic validates every field and reports all failures together. -/
def vseq {α β : Type} : VResult (α → β) → VResult α → VResult β
  | .ok f, .ok a => .ok (f a)
  | .error e, .ok _ => .error e
  | .ok _, .error e => .error e
  | .error e1, .error e2 => .error (e1 ++ e2)

/-- A required field (`Field(...)` or no default): absent or unconvertible
input fails with the field's wire name as the error location. -/
def reqField {α : Type} (kvs : List (String × JVal)) (wireName : String)
    (conv : JVal → Option α) : VResult α :=
  match lookupKey kvs wireName with
  | none => .error [wireName]
  | some v =>
    match conv v with
    | some a => .ok a
    | none => .error [wireName]

/-- A field with a default: absent input yields the default, present input
must convert. -/
def optField {α : Type} (kvs : List (String × JVal)) (wireName : String)
    (conv : JVal → Option α) (dflt : α) : VResult α :=
  match lookupKey kvs wireName with
  | none => .ok dflt
  | some v =>
    match conv v with
    | some a => .ok a
    | none => .error [wireName]

/-! ### Conversions from JSON values to field types -/

def asStr : JVal → Option String
  | .jstr s => some s
  | _ => none

def asOptStr : JVal → Option (Option String)
  | .jnull => some none
  | .jstr s => some (some s)
  | _ => none

def asOptNum : JVal → Option (Option Rat)
  | .jnull => some none
  | .jnum q => some (some q)
  | _ => none

/-- Python `int` fields accept integral numbers. -/
def asInt : JVal → Option Int
  | .jnum q => if q.den = 1 then some q.num else none
  | _ => none

def asBool : JVal → Option Bool
  | .jbool b => some b
  | _ => none

def asStrList : JVal → Option (List String)
  | .jarr xs => xs.mapM asStr
  | _ => none

def asOptStrList : JVal → Option (Option (List String))
  | .jnull => some none
  | .jarr xs => (xs.mapM asStr).map some
  | _ => none

/-- `Dict[str, Any]` fields accept any JSON object. -/
def asObj : JVal → Option (List (String × JVal))
  | .jobj kvs => some kvs
  | _ => none

def asOptObj : JVal → Option (Option (List (String × JVal)))
  | .jnull => some none
  | .jobj kvs => some (some kvs)
  | _ => none

/-- `Dict[str, str]`: a JSON object all of whose values are strings. -/
def asStrStrObj : JVal → Option (List (String × String))
  | .jobj kvs => kvs.mapM (fun kv => (asStr kv.2).map (fun s => (kv.1, s)))
  | _ => none

def asStrStrObjList : JVal → Option (List (List (String × String)))
  | .jarr xs => xs.mapM asStrStrObj
  | _ => none

def asCampaignType : JVal → Option CampaignType
  | .jstr s => CampaignType.ofValue s
  | _ => none

def asCampaignGoal : JVal → Option CampaignGoal
  | .jstr s => CampaignGoal.ofValue s
  | _ => none

def asOptUrgency : JVal → Option (Option Urgency)
  | .jnull => some none
  | .jstr s => (Urgency.ofValue s).map some
  | _ => none

/-! ### Serialization helpers (`.dict()` value rendering) -/

def jOfOptStr : Option String → JVal
  | none => .jnull
  | some s => .jstr s

def jOfOptNum : Option Rat → JVal
  | none => .jnull
  | some q => .jnum q

def jOfOptStrList : Option (List String) → JVal
  | none => .jnull
  | some xs => .jarr (xs.map .jstr)

def jOfOptObj : Option (List (String × JVal)) → JVal
  | none => .jnull
  | some kvs => .jobj kvs

/-! ### `Product` (`models.py` lines 29-38): all fields optional,
`currency` defaults to `"USD"`, no aliases. -/

structure Product where
  id : Option String
  name : Option String
  price : Option Rat
  currency : Option String
  image : Option String
  url : Option String
  description : Option String
  brand : Option String
deriving DecidableEq, Repr

/-- Pydantic construction of `Product` from keyword arguments. -/
def Product.validate (kvs : List (String × JVal)) : VResult Product :=
  vseq (vseq (vseq (vseq (vseq (vseq (vseq (vseq (.ok Product.mk)
    (optField kvs "id" asOptStr none))
    (optField kvs "name" asOptStr none))
    (optField kvs "price" asOptNum none))
    (optField kvs "currency" asOptStr (some "USD")))
    (optField kvs "image" asOptStr none))
    (optField kvs "url" asOptStr none))
    (optField kvs "description" asOptStr none))
    (optField kvs "brand" asOptStr none)

/-- `Product().dict()`: default arguments, so every field appears under its
attribute name, unset fields included with their defaults. -/
def Product.dict (p : Product) : List (String × JVal) :=
  [("id", jOfOptStr p.id),
   ("name", jOfOptStr p.name),
   ("price", jOfOptNum p.price),
   ("currency", jOfOptStr p.currency),
   ("image", jOfOptStr p.image),
   ("url", jOfOptStr p.url),
   ("description", jOfOptStr p.description),
   ("brand", jOfOptStr p.brand)]

/-! ### `CampaignContext` (`models.py` lines 41-47): required enumerated
`type` and `goal`, optional `urgency` and `discount`. -/

structure CampaignContext where
  type : CampaignType
  goal : CampaignGoal
  urgency : Option Urgency
  discount : Option Rat
deriving DecidableEq, Repr

def CampaignContext.validate (kvs : List (String × JVal)) : VResult CampaignContext :=
  vseq (vseq (vseq (vseq (.ok CampaignContext.mk)
    (reqField kvs "type" asCampaignType))
    (reqField kvs "goal" asCampaignGoal))
    (optField kvs "urgency" asOptUrgency none))
    (optField kvs "discount" asOptNum none)

def CampaignContext.dict (c : CampaignContext) : List (String × JVal) :=
  [("type", .jstr c.type.value),
   ("goal", .jstr c.goal.value),
   ("urgency", match c.urgency with | none => .jnull | some u => .jstr u.value),
   ("discount", jOfOptNum c.discount)]

/-! ### `UserContext` (`models.py` lines 49-54): `first_name`, `last_name`
and `custom_fields` carry camelCase aliases, `email` does not. With pydantic's
default `populate_by_name = False`, aliased fields are populated by their
alias only; `.dict()` with default `by_alias=False` emits attribute names. -/

structure UserContext where
  first_name : Option String
  last_name : Option String
  email : Option String
  custom_fields : Option (List (String × JVal))

def UserContext.validate (kvs : List (String × JVal)) : VResult UserContext :=
  vseq (vseq (vseq (vseq (.ok UserContext.mk)
    (optField kvs "firstName" asOptStr none))
    (optField kvs "lastName" asOptStr none))
    (optField kvs "email" asOptStr none))
    (optField kvs "customFields" asOptObj none)

def UserContext.dict (u : UserContext) : List (String × JVal) :=
  [("first_name", jOfOptStr u.first_name),
   ("last_name", jOfOptStr u.last_name),
   ("email", jOfOptStr u.email),
   ("custom_fields", jOfOptObj u.custom_fields)]

/-! ### `BrandContext` (`models.py` lines 57-62): `company_name` carries the
alias `companyName`. -/

structure BrandContext where
  voice : Option String
  colors : Option (List String)
  logo : Option String
  company_name : Option String
deriving DecidableEq, Repr

def BrandContext.validate (kvs : List (String × JVal)) : VResult BrandContext :=
  vseq (vseq (vseq (vseq (.ok BrandContext.mk)
    (optField kvs "voice" asOptStr none))
    (optField kvs "colors" asOptStrList none))
    (optField kvs "logo" asOptStr none))
    (optField kvs "companyName" asOptStr none)

def BrandContext.dict (b : BrandContext) : List (String × JVal) :=
  [("voice", jOfOptStr b.voice),
   ("colors", jOfOptStrList b.colors),
   ("logo", jOfOptStr b.logo),
   ("company_name", jOfOptStr b.company_name)]

/-! ### `GenerationOptions` (`models.py` lines 65-68): `variations : int = 3`
with no positivity constraint, `preserve_merge_tags : bool` defaulting to
`True` with alias `preserveMergeTags`. -/

structure GenerationOptions where
  variations : Int
  preserve_merge_tags : Bool
deriving DecidableEq, Repr

def GenerationOptions.validate (kvs : List (String × JVal)) : VResult GenerationOptions :=
  vseq (vseq (.ok GenerationOptions.mk)
    (optField kvs "variations" asInt 3))
    (optField kvs "preserveMergeTags" asBool true)

def GenerationOptions.dict (o : GenerationOptions) : List (String × JVal) :=
  [("variations", .jnum (o.variations : Rat)),
   ("preserve_merge_tags", .jbool o.preserve_merge_tags)]

/-! ### Response-side models `Template` and `Campaign`
(`models.py` lines 71-87): every field required (`Field(...)`), aliased
fields populated by their camelCase alias. -/

structure Template where
  id : String
  variation_name : String
  amp_url : String
  fallback_url : String
  content : List (String × JVal)
  merge_tags : List String

def Template.validate (kvs : List (String × JVal)) : VResult Template :=
  vseq (vseq (vseq (vseq (vseq (vseq (.ok Template.mk)
    (reqField kvs "id" asStr))
    (reqField kvs "variationName" asStr))
    (reqField kvs "ampUrl" asStr))
    (reqField kvs "fallbackUrl" asStr))
    (reqField kvs "content" asObj))
    (reqField kvs "mergeTags" asStrList)

/-- Validation of one element of the `templates` array at index `i`: the
element must be an object validating as a `Template`; a failing field `f`
inside it is reported at pydantic's nested error location
`templates.<i>.<f>` (the rendering of the loc tuple `('templates', i, f)`),
and a non-object element at `templates.<i>`. -/
def validateTemplateElem (x : JVal) (i : Nat) : VResult Template :=
  match x with
  | .jobj tkvs =>
    match Template.validate tkvs with
    | .ok t => .ok t
    | .error locs => .error (locs.map (fun f => "templates." ++ toString i ++ "." ++ f))
  | _ => .error ["templates." ++ toString i]

/-- Validation of the elements of the `templates` array starting at index
`i`, collecting the nested error locations of every failing element. -/
def validateTemplates (xs : List JVal) (i : Nat) : VResult (List Template) :=
  match xs with
  | [] => .ok []
  | x :: rest =>
    vseq (vseq (.ok List.cons) (validateTemplateElem x i)) (validateTemplates rest (i + 1))

/-- The required `templates : List[Template]` field of `Campaign`: an absent
or non-list value fails at location `templates`; a list value has each
element validated with nested locations. -/
def templatesField (kvs : List (String × JVal)) : VResult (List Template) :=
  match lookupKey kvs "templates" with
  | none => .error ["templates"]
  | some (.jarr xs) => validateTemplates xs 0
  | some _ => .error ["templates"]

structure Campaign where
  campaign_id : String
  templates : List Template
  preview_urls : List (List (String × String))
  cost : List (String × JVal)
  metadata : List (String × JVal)

def Campaign.validate (kvs : List (String × JVal)) : VResult Campaign :=
  vseq (vseq (vseq (vseq (vseq (.ok Campaign.mk)
    (reqField kvs "campaignId" asStr))
    (templatesField kvs))
    (reqField kvs "previewUrls" asStrStrObjList))
    (reqField kvs "cost" asObj))
    (reqField kvs "metadata" asObj)

/-! ### Exceptions

`exceptions.py` declares the SDK taxonomy `AMPEmailError` with subclasses
`AuthenticationError`, `RateLimitError` and `ValidationError`. The client code
additionally raises Python's builtin `ValueError` (in `generate`), and model
construction raises `pydantic.ValidationError`; neither of those derives from
`AMPEmailError`. A non-dict JSON error body makes `_request` hit an
`AttributeError` on `.get`. -/

inductive SDKError where
  | authenticationError (msg : String)
  | rateLimitError (msg : String)
  | ampEmailError (msg : JVal)
  | validationError (msg : String)
  | valueError (msg : String)
  | pydanticValidationError (locs : List String)
  | pyTypeError (msg : String)
  | pyAttributeError

/-- `isinstance(e, AMPEmailError)`: membership in the SDK's own error
taxonomy of `exceptions.py`. -/
def SDKError.isAMPEmailError : SDKError → Bool
  | .authenticationError _ => true
  | .rateLimitError _ => true
  | .ampEmailError _ => true
  | .validationError _ => true
  | _ => false

/-- `isinstance(e, ValidationError)` for the SDK's `ValidationError`. -/
def SDKError.isSDKValidationError : SDKError → Bool
  | .validationError _ => true
  | _ => false

/-! ### The HTTP layer (`client.py`)

The transport is mocked by the `HttpResponse` it returns. The body is seen
through `requests`: `response.content` may be empty; otherwise
`response.json()` either succeeds with a decoded value or raises a
`JSONDecodeError` (which under `requests>=2.28.0`, the version `setup.py`
requires, is a `RequestException` and is therefore caught by `_request`'s
`except` clause). -/

inductive RespBody where
  | empty
  | decoded (j : JVal)
  | malformed (desc : String)

structure HttpResponse where
  status : Nat
  body : RespBody

/-- `str(e)` of the `JSONDecodeError` raised by `response.json()` on an empty
body (the success path calls `response.json()` unconditionally). -/
def emptyBodyDecodeError : String := "Expecting value: line 1 column 1 (char 0)"

/-- The response-classification part of `AMPEmailClient._request`
(`client.py` lines 139-152). -/
def handleResponse (resp : HttpResponse) : Except SDKError JVal :=
  if resp.status = 401 then .error (.authenticationError "Invalid API key")
  else if resp.status = 429 then .error (.rateLimitError "Rate limit exceeded")
  else if 400 ≤ resp.status then
    match resp.body with
    | .empty => .error (.ampEmailError (.jstr ("API error: " ++ toString resp.status)))
    | .decoded (.jobj kvs) =>
        .error (.ampEmailError
          ((lookupKey kvs "message").getD (.jstr ("API error: " ++ toString resp.status))))
    | .decoded _ => .error .pyAttributeError
    | .malformed desc => .error (.ampEmailError (.jstr ("Request failed: " ++ desc)))
  else
    match resp.body with
    | .decoded j => .ok j
    | .empty => .error (.ampEmailError (.jstr ("Request failed: " ++ emptyBodyDecodeError)))
    | .malformed desc => .error (.ampEmailError (.jstr ("Request failed: " ++ desc)))

/-- Python `str.rstrip("/")`: removes every trailing `'/'`. -/
def pyRstripSlashes (s : String) : String :=
  ⟨(s.data.reverse.dropWhile (fun c => c = '/')).reverse⟩

/-- The state stored by `AMPEmailClient.__init__` (`client.py` lines 33-35);
the session headers are a function of `api_key` and add no further state. -/
structure AMPEmailClient where
  api_key : String
  base_url : String
  timeout : Int
deriving DecidableEq, Repr

def defaultBaseUrl : String := "https://api.amp-platform.com"

/-- `AMPEmailClient.__init__`: stores the key and timeout and the base URL
with trailing slashes stripped. -/
def AMPEmailClient.init (api_key : String) (base_url : String) (timeout : Int) :
    AMPEmailClient :=
  { api_key := api_key, base_url := pyRstripSlashes base_url, timeout := timeout }

/-- `_request` builds the full URL as `f"{self.base_url}{path}"`. -/
def AMPEmailClient.requestUrl (c : AMPEmailClient) (path : String) : String :=
  c.base_url ++ path

/-- An HTTP request as issued by `_request`: method, full URL, optional JSON
body. -/
structure HttpRequest where
  method : String
  url : String
  body : Option (List (String × JVal))

/-- Python truthiness of an `Optional[List[...]]` argument: `None` and `[]`
are falsy. -/
def pyTruthyOptList {α : Type} : Option (List α) → Bool
  | some (_ :: _) => true
  | _ => false

/-- Python truthiness of an `Optional[str]` argument: `None` and `""` are
falsy. -/
def pyTruthyOptStr : Option String → Bool
  | some s => !s.isEmpty
  | none => false

/-! ### Operations -/

/-- The payload assembled by `generate` (`client.py` lines 69-82):
`campaign_context` always present (empty dict when not supplied), the other
fields included only when truthy. -/
def generatePayload (product_urls : Option (List String)) (products : Option (List Product))
    (campaign_context : Option CampaignContext) (user_context : Option UserContext)
    (brand_context : Option BrandContext) (options : Option GenerationOptions) :
    List (String × JVal) :=
  [("campaign_context", .jobj (match campaign_context with | some c => c.dict | none => []))]
  ++ (if pyTruthyOptList product_urls then
        [("product_urls", .jarr ((product_urls.getD []).map .jstr))] else [])
  ++ (if pyTruthyOptList products then
        [("products", .jarr ((products.getD []).map (fun p => .jobj p.dict)))] else [])
  ++ (match user_context with | some u => [("user_context", .jobj u.dict)] | none => [])
  ++ (match brand_context with | some b => [("brand_context", .jobj b.dict)] | none => [])
  ++ (match options with | some o => [("options", .jobj o.dict)] | none => [])

/-- `AMPEmailClient.generate` (`client.py` lines 43-85) against a mocked
transport response. Returns the client (which the method never mutates), the
list of HTTP requests issued, and the outcome: the input check precedes any
request; on a 2xx response the decoded body is passed to
`Campaign(**response)`. -/
def AMPEmailClient.generate (client : AMPEmailClient)
    (product_urls : Option (List String)) (products : Option (List Product))
    (campaign_context : Option CampaignContext) (user_context : Option UserContext)
    (brand_context : Option BrandContext) (options : Option GenerationOptions)
    (resp : HttpResponse) :
    AMPEmailClient × List HttpRequest × Except SDKError Campaign :=
  if !pyTruthyOptList product_urls && !pyTruthyOptList products then
    (client, [], .error (.valueError "Either product_urls or products must be provided"))
  else
    let payload := generatePayload product_urls products campaign_context
      user_context brand_context options
    (client,
     [{ method := "POST", url := client.requestUrl "/api/v1/generate", body := some payload }],
     match handleResponse resp with
     | .error e => .error e
     | .ok (.jobj kvs) =>
       match Campaign.validate kvs with
       | .ok c => .ok c
       | .error locs => .error (.pydanticValidationError locs)
     | .ok _ => .error (.pyTypeError "argument of type NoneType is not a mapping"))

/-- `AMPEmailClient.get_template` (`client.py` lines 87-89). -/
def AMPEmailClient.get_template (client : AMPEmailClient) (template_id : String)
    (resp : HttpResponse) : HttpRequest × Except SDKError JVal :=
  ({ method := "GET", url := client.requestUrl ("/api/v1/templates/" ++ template_id),
     body := none },
   handleResponse resp)

/-- `AMPEmailClient.personalize` (`client.py` lines 91-99). -/
def AMPEmailClient.personalize (client : AMPEmailClient) (template_id : String)
    (recipient_data : List (String × JVal)) (resp : HttpResponse) :
    HttpRequest × Except SDKError JVal :=
  ({ method := "POST", url := client.requestUrl "/api/v1/personalize",
     body := some [("template_id", .jstr template_id),
                   ("recipient_data", .jobj recipient_data)] },
   handleResponse resp)

/-- The payload assembled by `create_batch_campaign` (`client.py` lines
111-120): `webhook_url` is appended only when truthy. -/
def createBatchCampaignPayload (campaign_name : String) (product_urls : List String)
    (campaign_context : CampaignContext) (max_concurrent : Int) (chunk_size : Int)
    (webhook_url : Option String) : List (String × JVal) :=
  [("campaign_name", .jstr campaign_name),
   ("product_urls", .jarr (product_urls.map .jstr)),
   ("campaign_context", .jobj campaign_context.dict),
   ("max_concurrent", .jnum (max_concurrent : Rat)),
   ("chunk_size", .jnum (chunk_size : Rat))]
  ++ (if pyTruthyOptStr webhook_url then [("webhook_url", .jstr (webhook_url.getD ""))] else [])

/-- `AMPEmailClient.create_batch_campaign` (`client.py` lines 101-122) with
all arguments explicit. -/
def AMPEmailClient.create_batch_campaign (client : AMPEmailClient)
    (campaign_name : String) (product_urls : List String)
    (campaign_context : CampaignContext) (max_concurrent : Int) (chunk_size : Int)
    (webhook_url : Option String) (resp : HttpResponse) :
    HttpRequest × Except SDKError JVal :=
  ({ method := "POST", url := client.requestUrl "/api/v1/batch/campaign",
     body := some (createBatchCampaignPayload campaign_name product_urls
       campaign_context max_concurrent chunk_size webhook_url) },
   handleResponse resp)

/-- `create_batch_campaign` called with its Python defaults
`max_concurrent=10`, `chunk_size=100`, `webhook_url=None`. -/
def AMPEmailClient.create_batch_campaign_defaults (client : AMPEmailClient)
    (campaign_name : String) (product_urls : List String)
    (campaign_context : CampaignContext) (resp : HttpResponse) :
    HttpRequest × Except SDKError JVal :=
  client.create_batch_campaign campaign_name product_urls campaign_context 10 100 none resp

/-- `AMPEmailClient.get_campaign_analytics` (`client.py` lines 124-126). -/
def AMPEmailClient.get_campaign_analytics (client : AMPEmailClient) (campaign_id : String)
    (resp : HttpResponse) : HttpRequest × Except SDKError JVal :=
  ({ method := "GET", url := client.requestUrl ("/api/v1/analytics/campaign/" ++ campaign_id),
     body := none },
   handleResponse resp)

/-! ## Helper lemmas -/

theorem failsWith_vseq_left {α β : Type} {x : VResult (α → β)} (y : VResult α) {e : String}
    (h : ∃ l, x = .error l ∧ e ∈ l) : ∃ l2, vseq x y = .error l2 ∧ e ∈ l2 := by
  obtain ⟨l, hx, he⟩ := h
  subst hx
  cases y with
  | ok a => exact ⟨l, rfl, he⟩
  | error l2 => exact ⟨l ++ l2, rfl, List.mem_append_left _ he⟩

theorem failsWith_vseq_right {α β : Type} (x : VResult (α → β)) {y : VResult α} {e : String}
    (h : ∃ l, y = .error l ∧ e ∈ l) : ∃ l2, vseq x y = .error l2 ∧ e ∈ l2 := by
  obtain ⟨l, hy, he⟩ := h
  subst hy
  cases x with
  | ok f => exact ⟨l, rfl, he⟩
  | error l1 => exact ⟨l1 ++ l, rfl, List.mem_append_right _ he⟩

/-- A `templates` array element that fails to validate as a `Template` at
field `f` makes the whole array validation fail at the nested location
`templates.<index>.<f>`, whatever its position in the array. -/
theorem validateTemplates_elem_fails (tkvs : List (String × JVal))
    (f : String) (locs0 : List String)
    (hval : Template.validate tkvs = .error locs0) (hf : f ∈ locs0) :
    ∀ (pre : List JVal) (post : List JVal) (i : Nat),
      ∃ locs, validateTemplates (pre ++ .jobj tkvs :: post) i = .error locs ∧
        ("templates." ++ toString (i + pre.length) ++ "." ++ f) ∈ locs := by
  intro pre
  induction pre with
  | nil =>
    intro post i
    refine failsWith_vseq_left _ (failsWith_vseq_right _
      ⟨locs0.map (fun g => "templates." ++ toString i ++ "." ++ g),
        by simp [validateTemplateElem, hval], ?_⟩)
    exact List.mem_map_of_mem _ hf
  | cons x pre ih =>
    intro post i
    obtain ⟨locs1, h1, hm1⟩ := ih post (i + 1)
    rw [show (i + 1) + pre.length = i + (pre.length + 1) from by omega] at hm1
    exact failsWith_vseq_right _ ⟨locs1, h1, hm1⟩

theorem dropWhile_replicate_append {α : Type} (p : α → Bool) (c : α) (hc : p c = true)
    (n : Nat) (l : List α) :
    (List.replicate n c ++ l).dropWhile p = l.dropWhile p := by
  induction n with
  | zero => rfl
  | succ n ih => simp [List.replicate_succ, List.dropWhile_cons, hc, ih]

theorem head?_dropWhile_not {α : Type} (p : α → Bool) (l : List α) :
    ∀ a, (l.dropWhile p).head? = some a → p a = false := by
  induction l with
  | nil => intro a h; simp [List.dropWhile] at h
  | cons x xs ih =>
    intro a h
    rw [List.dropWhile_cons] at h
    by_cases hx : p x
    · exact ih a (by simpa [hx] using h)
    · simp [hx] at h
      subst h
      simpa using hx

/-- Stripping the slashes appended to a string gives the same result as
stripping the string itself. -/
theorem pyRstripSlashes_append_slashes (b : String) (n : Nat) :
    pyRstripSlashes (b ++ String.mk (List.replicate n '/')) = pyRstripSlashes b := by
  cases b with
  | mk l =>
    simp only [pyRstripSlashes, String.data_append]
    rw [List.reverse_append, List.reverse_replicate,
      dropWhile_replicate_append (fun c => c = '/') '/' (by simp) n]

/-- The stripped base URL never ends in `'/'`. -/
theorem pyRstripSlashes_no_trailing_slash (s : String) :
    (pyRstripSlashes s).data.getLast? ≠ some '/' := by
  intro h
  simp only [pyRstripSlashes] at h
  rw [List.getLast?_reverse] at h
  have := head?_dropWhile_not (fun c => c = '/') s.data.reverse '/' h
  simp at this

/-! ## Concrete instances used by witnesses and counterexamples -/

def clientEx : AMPEmailClient := AMPEmailClient.init "test-key" defaultBaseUrl 30

def respOkEx : HttpResponse := { status := 200, body := .decoded (.jobj []) }

def ccEx : CampaignContext :=
  { type := .promotional, goal := .conversion, urgency := none, discount := none }

def userEx : UserContext :=
  { first_name := some "John", last_name := none, email := none, custom_fields := none }

def templateBodyEx : List (String × JVal) :=
  [("id", .jstr "t1"), ("variationName", .jstr "Variation A"),
   ("ampUrl", .jstr "https://cdn.example/t1.amp.html"),
   ("fallbackUrl", .jstr "https://cdn.example/t1.html"),
   ("content", .jobj [("subject", .jstr "Hello")]),
   ("mergeTags", .jarr [.jstr "first_name"])]

def templateEx : Template :=
  { id := "t1", variation_name := "Variation A",
    amp_url := "https://cdn.example/t1.amp.html",
    fallback_url := "https://cdn.example/t1.html",
    content := [("subject", .jstr "Hello")],
    merge_tags := ["first_name"] }

def campaignBodyEx : List (String × JVal) :=
  [("campaignId", .jstr "c1"),
   ("templates", .jarr [.jobj templateBodyEx]),
   ("previewUrls", .jarr [.jobj [("t1", .jstr "https://preview.example/t1")]]),
   ("cost", .jobj [("total", .jnum 1)]),
   ("metadata", .jobj [])]

def campaignEx : Campaign :=
  { campaign_id := "c1", templates := [templateEx],
    preview_urls := [[("t1", "https://preview.example/t1")]],
    cost := [("total", .jnum 1)], metadata := [] }

/-! ## Claims -/

/-- C1 counterexample: calling `generate` with `product_urls=None` and
`products=[]` raises Python's builtin `ValueError`, which is neither the
SDK's `ValidationError` nor any member of the `AMPEmailError` taxonomy of
`exceptions.py` — so the claimed "validation error (of the client's error
taxonomy)" is not what the code raises. -/
theorem generate_empty_raises_builtin_valueerror :
    clientEx.generate none (some []) none none none none respOkEx =
      (clientEx, [], .error (.valueError "Either product_urls or products must be provided"))
    ∧ (SDKError.valueError "Either product_urls or products must be provided").isAMPEmailError
        = false
    ∧ (SDKError.valueError "Either product_urls or products must be provided").isSDKValidationError
        = false :=
  ⟨rfl, rfl, rfl⟩

/-- C1 (amended): whenever both `product_urls` and `products` are unset or
empty (Python-falsy), `generate` fails client-side with the builtin
`ValueError` `"Either product_urls or products must be provided"` — not with
the SDK's `ValidationError` — issues zero HTTP requests, and leaves the
client state unchanged. -/
theorem generate_empty_inputs_fails_before_network
    (client : AMPEmailClient) (product_urls : Option (List String))
    (products : Option (List Product)) (cc : Option CampaignContext)
    (uc : Option UserContext) (bc : Option BrandContext)
    (o : Option GenerationOptions) (resp : HttpResponse)
    (h1 : pyTruthyOptList product_urls = false)
    (h2 : pyTruthyOptList products = false) :
    client.generate product_urls products cc uc bc o resp =
      (client, [], .error (.valueError "Either product_urls or products must be provided")) := by
  simp [AMPEmailClient.generate, h1, h2]

/-- C1 witness: the amended theorem applied at `product_urls=None`,
`products=[]`. -/
theorem generate_empty_inputs_fails_before_network_witness :
    pyTruthyOptList (none : Option (List String)) = false
    ∧ pyTruthyOptList (some ([] : List Product)) = false
    ∧ clientEx.generate none (some []) none none none none respOkEx =
        (clientEx, [], .error (.valueError "Either product_urls or products must be provided")) :=
  ⟨rfl, rfl,
    generate_empty_inputs_fails_before_network clientEx none (some []) none none none none
      respOkEx rfl rfl⟩

/-- C10: the client stores the base URL with all trailing `'/'` characters
removed, so base URLs differing only by appended trailing slashes give
identical stored state and identical full request URLs for every path, and
the stored base URL never ends in `'/'`. -/
theorem base_url_trailing_slash_insensitive
    (api_key b path : String) (t : Int) (n : Nat) :
    AMPEmailClient.init api_key (b ++ String.mk (List.replicate n '/')) t =
      AMPEmailClient.init api_key b t
    ∧ (AMPEmailClient.init api_key (b ++ String.mk (List.replicate n '/')) t).requestUrl path =
        (AMPEmailClient.init api_key b t).requestUrl path
    ∧ (AMPEmailClient.init api_key b t).base_url.data.getLast? ≠ some '/' := by
  have h := pyRstripSlashes_append_slashes b n
  refine ⟨?_, ?_, ?_⟩
  · simp [AMPEmailClient.init, h]
  · simp [AMPEmailClient.init, AMPEmailClient.requestUrl, h]
  · exact pyRstripSlashes_no_trailing_slash b

/-- C10 witness: the theorem applied at a base URL with two trailing
slashes. -/
theorem base_url_trailing_slash_insensitive_witness :
    AMPEmailClient.init "k" ("https://api.amp-platform.com" ++ String.mk (List.replicate 2 '/')) 30 =
      AMPEmailClient.init "k" "https://api.amp-platform.com" 30
    ∧ (AMPEmailClient.init "k" ("https://api.amp-platform.com" ++ String.mk (List.replicate 2 '/')) 30).requestUrl
        "/api/v1/generate" =
        (AMPEmailClient.init "k" "https://api.amp-platform.com" 30).requestUrl "/api/v1/generate"
    ∧ (AMPEmailClient.init "k" "https://api.amp-platform.com" 30).base_url.data.getLast? ≠ some '/' :=
  base_url_trailing_slash_insensitive "k" "https://api.amp-platform.com" "/api/v1/generate" 30 2

theorem campaignType_ofValue_eq_none (s : String)
    (h : s ∉ (["abandoned_cart", "promotional", "product_launch", "price_drop",
      "back_in_stock"] : List String)) : CampaignType.ofValue s = none := by
  simp only [List.mem_cons, List.not_mem_nil, or_false, not_or] at h
  obtain ⟨h1, h2, h3, h4, h5⟩ := h
  simp [CampaignType.ofValue, h1, h2, h3, h4, h5]

theorem campaignGoal_ofValue_eq_none (s : String)
    (h : s ∉ (["acquisition", "retention", "engagement", "conversion"] : List String)) :
    CampaignGoal.ofValue s = none := by
  simp only [List.mem_cons, List.not_mem_nil, or_false, not_or] at h
  obtain ⟨h1, h2, h3, h4⟩ := h
  simp [CampaignGoal.ofValue, h1, h2, h3, h4]

theorem urgency_ofValue_eq_none (s : String)
    (h : s ∉ (["low", "medium", "high"] : List String)) : Urgency.ofValue s = none := by
  simp only [List.mem_cons, List.not_mem_nil, or_false, not_or] at h
  obtain ⟨h1, h2, h3⟩ := h
  simp [Urgency.ofValue, h1, h2, h3]

/-- C8: every enumerated field of `CampaignContext` accepts only its declared
value set: a `type` outside {abandoned_cart, promotional, product_launch,
price_drop, back_in_stock}, a `goal` outside {acquisition, retention,
engagement, conversion}, or an `urgency` outside {low, medium, high} makes
pydantic construction (which is also the deserialization path, and runs
before any network call) fail with a `pydantic.ValidationError` locating the
offending field; in particular `type="bogus"` fails at construction. -/
theorem campaign_context_enum_validation (s : String)
    (ht : s ∉ (["abandoned_cart", "promotional", "product_launch", "price_drop",
      "back_in_stock"] : List String))
    (hg : s ∉ (["acquisition", "retention", "engagement", "conversion"] : List String))
    (hu : s ∉ (["low", "medium", "high"] : List String)) :
    CampaignContext.validate [("type", .jstr s), ("goal", .jstr "conversion")] =
      .error ["type"]
    ∧ CampaignContext.validate [("type", .jstr "promotional"), ("goal", .jstr s)] =
        .error ["goal"]
    ∧ CampaignContext.validate
        [("type", .jstr "promotional"), ("goal", .jstr "conversion"), ("urgency", .jstr s)] =
        .error ["urgency"]
    ∧ CampaignContext.validate [("type", .jstr "bogus"), ("goal", .jstr "acquisition")] =
        .error ["type"] := by
  have ht' := campaignType_ofValue_eq_none s ht
  have hg' := campaignGoal_ofValue_eq_none s hg
  have hu' := urgency_ofValue_eq_none s hu
  refine ⟨?_, ?_, ?_, rfl⟩
  · simp [CampaignContext.validate, reqField, optField, vseq, asCampaignType,
      asCampaignGoal, CampaignGoal.ofValue, lookupKey, ht']
  · simp [CampaignContext.validate, reqField, optField, vseq, asCampaignType,
      asCampaignGoal, CampaignType.ofValue, lookupKey, hg']
  · simp [CampaignContext.validate, reqField, optField, vseq, asCampaignType,
      asCampaignGoal, asOptUrgency, CampaignType.ofValue, CampaignGoal.ofValue,
      lookupKey, hu']

/-- C8 witness: the theorem applied at the spec's example value `"bogus"`. -/
theorem campaign_context_enum_validation_witness :
    CampaignContext.validate [("type", .jstr "bogus"), ("goal", .jstr "conversion")] =
      .error ["type"]
    ∧ CampaignContext.validate [("type", .jstr "promotional"), ("goal", .jstr "bogus")] =
        .error ["goal"]
    ∧ CampaignContext.validate
        [("type", .jstr "promotional"), ("goal", .jstr "conversion"), ("urgency", .jstr "bogus")] =
        .error ["urgency"]
    ∧ CampaignContext.validate [("type", .jstr "bogus"), ("goal", .jstr "acquisition")] =
        .error ["type"] :=
  campaign_context_enum_validation "bogus" (by decide) (by decide) (by decide)

/-- C9 counterexample: `GenerationOptions(variations=0)` is accepted — the
field carries no positivity constraint — and the serialized mapping has no
camelCase `preserveMergeTags` key (`.dict()` uses the snake_case attribute
name). -/
theorem generation_options_nonpositive_accepted :
    GenerationOptions.validate [("variations", .jnum 0)] =
      .ok { variations := 0, preserve_merge_tags := true }
    ∧ lookupKey (GenerationOptions.mk 3 true).dict "preserveMergeTags" = none :=
  ⟨rfl, rfl⟩

/-- C9 (amended): `variations` is a plain integer defaulting to 3 — any
integer value, non-positive included, is accepted — and `preserve_merge_tags`
is a boolean defaulting to `true` whose declared camelCase alias
`preserveMergeTags` is used to populate it, while `.dict()` serialization
emits the snake_case attribute name. -/
theorem generation_options_fields (n : Int) :
    GenerationOptions.validate [] = .ok { variations := 3, preserve_merge_tags := true }
    ∧ GenerationOptions.validate [("variations", .jnum (n : Rat))] =
        .ok { variations := n, preserve_merge_tags := true }
    ∧ GenerationOptions.validate [("preserveMergeTags", .jbool false)] =
        .ok { variations := 3, preserve_merge_tags := false }
    ∧ GenerationOptions.validate [("preserve_merge_tags", .jbool false)] =
        .ok { variations := 3, preserve_merge_tags := true }
    ∧ (GenerationOptions.mk 3 true).dict =
        [("variations", .jnum 3), ("preserve_merge_tags", .jbool true)] := by
  refine ⟨rfl, ?_, rfl, rfl, rfl⟩
  simp [GenerationOptions.validate, optField, vseq, asInt, lookupKey,
    Rat.den_intCast, Rat.num_intCast]

/-- C7 counterexample: `create_batch_campaign` called with
`webhook_url=""` — a supplied argument — omits the `webhook_url` key from
the request body (`if webhook_url:` is falsy on the empty string), so the
key is not omitted "exactly when webhook_url is not supplied". -/
theorem batch_payload_empty_webhook_omitted :
    pyTruthyOptStr (some "") = false
    ∧ lookupKey (createBatchCampaignPayload "c" ["https://x.example/p"] ccEx 10 100 (some ""))
        "webhook_url" = none :=
  ⟨rfl, rfl⟩

/-- C7 (amended): the batch request body contains `campaign_name`,
`product_urls`, the serialized `campaign_context`, `max_concurrent`
(default 10) and `chunk_size` (default 100); the `webhook_url` key is present
exactly when the supplied value is truthy (so it is omitted when unset and
also when supplied as the empty string), and when present it holds the
supplied value verbatim. -/
theorem batch_payload_contents (campaign_name : String) (product_urls : List String)
    (cc : CampaignContext) (mc cs : Int) (w : Option String) :
    lookupKey (createBatchCampaignPayload campaign_name product_urls cc mc cs w)
        "campaign_name" = some (.jstr campaign_name)
    ∧ lookupKey (createBatchCampaignPayload campaign_name product_urls cc mc cs w)
        "product_urls" = some (.jarr (product_urls.map .jstr))
    ∧ lookupKey (createBatchCampaignPayload campaign_name product_urls cc mc cs w)
        "campaign_context" = some (.jobj cc.dict)
    ∧ lookupKey (createBatchCampaignPayload campaign_name product_urls cc mc cs w)
        "max_concurrent" = some (.jnum (mc : Rat))
    ∧ lookupKey (createBatchCampaignPayload campaign_name product_urls cc mc cs w)
        "chunk_size" = some (.jnum (cs : Rat))
    ∧ lookupKey (createBatchCampaignPayload campaign_name product_urls cc mc cs w)
        "webhook_url" =
        (if pyTruthyOptStr w then some (.jstr (w.getD "")) else none)
    ∧ (∀ (client : AMPEmailClient) (resp : HttpResponse),
        (client.create_batch_campaign_defaults campaign_name product_urls cc resp).1.body =
          some (createBatchCampaignPayload campaign_name product_urls cc 10 100 none)) := by
  refine ⟨?_, ?_, ?_, ?_, ?_, ?_, fun client resp => rfl⟩ <;>
    by_cases hw : pyTruthyOptStr w <;>
      simp [createBatchCampaignPayload, lookupKey, hw]

/-- C5 counterexample: an HTTP 500 response whose body is non-empty but not
parseable JSON does not yield the message `"API error: 500"`:
`response.json()` raises a `JSONDecodeError`, which under `requests>=2.28.0`
is a `RequestException`, so `_request`'s catch-all clause produces
`AMPEmailError("Request failed: <decode error>")` instead. -/
theorem http500_unparseable_body_not_generic_message :
    handleResponse
        { status := 500, body := .malformed "Expecting value: line 1 column 1 (char 0)" } =
      .error (.ampEmailError (.jstr "Request failed: Expecting value: line 1 column 1 (char 0)"))
    ∧ "Request failed: Expecting value: line 1 column 1 (char 0)" ≠ "API error: 500" :=
  ⟨rfl, by decide⟩

/-- C5 (amended): for a response with status ≥ 400 other than 401 and 429,
the raised generic `AMPEmailError`'s message is the `message` field of the
JSON error body when the body parses to an object containing one; it is
`"API error: <status>"` when the body is empty or parses to an object
without a `message` field; and when the body is non-empty but unparseable
the error is instead `AMPEmailError("Request failed: <decode error>")`,
raised through the transport-failure catch clause. -/
theorem generic_api_error_messages (status : Nat)
    (h4 : 400 ≤ status) (h401 : status ≠ 401) (h429 : status ≠ 429) :
    (∀ (kvs : List (String × JVal)) (m : String),
      lookupKey kvs "message" = some (.jstr m) →
        handleResponse { status := status, body := .decoded (.jobj kvs) } =
          .error (.ampEmailError (.jstr m)))
    ∧ handleResponse { status := status, body := .empty } =
        .error (.ampEmailError (.jstr ("API error: " ++ toString status)))
    ∧ (∀ kvs : List (String × JVal), lookupKey kvs "message" = none →
        handleResponse { status := status, body := .decoded (.jobj kvs) } =
          .error (.ampEmailError (.jstr ("API error: " ++ toString status))))
    ∧ (∀ desc : String, handleResponse { status := status, body := .malformed desc } =
        .error (.ampEmailError (.jstr ("Request failed: " ++ desc)))) := by
  refine ⟨fun kvs m hm => ?_, ?_, fun kvs hm => ?_, fun desc => ?_⟩
  · simp [handleResponse, h401, h429, h4, hm, Option.getD]
  · simp [handleResponse, h401, h429, h4]
  · simp [handleResponse, h401, h429, h4, hm, Option.getD]
  · simp [handleResponse, h401, h429, h4]

/-- C5 witness: the amended theorem applied at status 500 with the body
`{"message": "boom"}` and with an empty body. -/
theorem generic_api_error_messages_witness :
    handleResponse { status := 500, body := .decoded (.jobj [("message", .jstr "boom")]) } =
      .error (.ampEmailError (.jstr "boom"))
    ∧ handleResponse { status := 500, body := .empty } =
        .error (.ampEmailError (.jstr ("API error: " ++ toString 500))) :=
  ⟨(generic_api_error_messages 500 (by decide) (by decide) (by decide)).1
      [("message", .jstr "boom")] "boom" rfl,
    (generic_api_error_messages 500 (by decide) (by decide) (by decide)).2.1⟩

/-- C4: whenever an operation issues its HTTP request (for `generate` this
requires one of `product_urls`/`products` to be truthy, since its input check
runs first), a transport response with status 401 makes every operation raise
`AuthenticationError("Invalid API key")` and one with status 429 makes every
operation raise `RateLimitError("Rate limit exceeded")`. -/
theorem status_401_and_429_mapping (client : AMPEmailClient)
    (purls : Option (List String)) (prods : Option (List Product))
    (cc : Option CampaignContext) (uc : Option UserContext) (bc : Option BrandContext)
    (o : Option GenerationOptions) (tid cid cname : String)
    (rd : List (String × JVal)) (urls : List String) (bcc : CampaignContext)
    (mc cs : Int) (w : Option String) (resp : HttpResponse)
    (hargs : pyTruthyOptList purls = true ∨ pyTruthyOptList prods = true) :
    (resp.status = 401 →
      (client.generate purls prods cc uc bc o resp).2.2 =
        .error (.authenticationError "Invalid API key")
      ∧ (client.get_template tid resp).2 = .error (.authenticationError "Invalid API key")
      ∧ (client.personalize tid rd resp).2 = .error (.authenticationError "Invalid API key")
      ∧ (client.create_batch_campaign cname urls bcc mc cs w resp).2 =
          .error (.authenticationError "Invalid API key")
      ∧ (client.get_campaign_analytics cid resp).2 =
          .error (.authenticationError "Invalid API key"))
    ∧ (resp.status = 429 →
      (client.generate purls prods cc uc bc o resp).2.2 =
        .error (.rateLimitError "Rate limit exceeded")
      ∧ (client.get_template tid resp).2 = .error (.rateLimitError "Rate limit exceeded")
      ∧ (client.personalize tid rd resp).2 = .error (.rateLimitError "Rate limit exceeded")
      ∧ (client.create_batch_campaign cname urls bcc mc cs w resp).2 =
          .error (.rateLimitError "Rate limit exceeded")
      ∧ (client.get_campaign_analytics cid resp).2 =
          .error (.rateLimitError "Rate limit exceeded")) := by
  constructor <;> intro hst <;>
    refine ⟨?_, ?_, ?_, ?_, ?_⟩ <;>
      rcases hargs with h | h <;>
        simp [AMPEmailClient.generate, AMPEmailClient.get_template,
          AMPEmailClient.personalize, AMPEmailClient.create_batch_campaign,
          AMPEmailClient.get_campaign_analytics, handleResponse, hst, h]

/-- C4 witness: the theorem applied at concrete arguments with a 401
response and a 429 response. -/
theorem status_401_and_429_mapping_witness :
    ((clientEx.generate (some ["https://x.example/p"]) none none none none none
        { status := 401, body := .empty }).2.2 =
      .error (.authenticationError "Invalid API key"))
    ∧ ((clientEx.get_template "t1" { status := 429, body := .empty }).2 =
        .error (.rateLimitError "Rate limit exceeded")) :=
  ⟨((status_401_and_429_mapping clientEx (some ["https://x.example/p"]) none none none none
      none "t1" "c1" "n" [] [] ccEx 10 100 none { status := 401, body := .empty }
      (Or.inl rfl)).1 rfl).1,
    ((status_401_and_429_mapping clientEx (some ["https://x.example/p"]) none none none none
      none "t1" "c1" "n" [] [] ccEx 10 100 none { status := 429, body := .empty }
      (Or.inl rfl)).2 rfl).2.1⟩

/-- C6: decoding a response-side model (`Template`, `Campaign`) from a
server payload is strict. For every required field of either model, a
payload missing that field fails the decode with a
`pydantic.ValidationError` whose error locations name the missing field —
including a missing field of a template nested anywhere inside a campaign
body, reported at `templates.<index>.<field>`. Unknown extra keys never
change a decode; in particular a well-formed campaign body still decodes,
to the same value, with an extra key present. Through `generate`, such a
decode failure surfaces as `pydantic.ValidationError`, an error kind
outside the `AMPEmailError` taxonomy that transport and HTTP failures
use. -/
theorem response_model_decode_strictness :
    (∀ f ∈ (["campaignId", "templates", "previewUrls", "cost", "metadata"] : List String),
      ∀ kvs : List (String × JVal), lookupKey kvs f = none →
        ∃ locs, Campaign.validate kvs = .error locs ∧ f ∈ locs)
    ∧ (∀ f ∈ (["id", "variationName", "ampUrl", "fallbackUrl", "content",
          "mergeTags"] : List String),
      ∀ tkvs : List (String × JVal), lookupKey tkvs f = none →
        ∃ locs, Template.validate tkvs = .error locs ∧ f ∈ locs)
    ∧ (∀ f ∈ (["id", "variationName", "ampUrl", "fallbackUrl", "content",
          "mergeTags"] : List String),
      ∀ (kvs tkvs : List (String × JVal)) (pre post : List JVal),
        lookupKey tkvs f = none →
        lookupKey kvs "templates" = some (.jarr (pre ++ .jobj tkvs :: post)) →
          ∃ locs, Campaign.validate kvs = .error locs ∧
            ("templates." ++ toString pre.length ++ "." ++ f) ∈ locs)
    ∧ (∀ (k : String) (v : JVal) (kvs : List (String × JVal)),
        k ∉ (["campaignId", "templates", "previewUrls", "cost", "metadata"] : List String) →
          Campaign.validate ((k, v) :: kvs) = Campaign.validate kvs)
    ∧ (∀ (k : String) (v : JVal) (tkvs : List (String × JVal)),
        k ∉ (["id", "variationName", "ampUrl", "fallbackUrl", "content",
          "mergeTags"] : List String) →
          Template.validate ((k, v) :: tkvs) = Template.validate tkvs)
    ∧ Campaign.validate campaignBodyEx = .ok campaignEx
    ∧ Campaign.validate (("extra", .jnull) :: campaignBodyEx) = .ok campaignEx
    ∧ (∀ (client : AMPEmailClient) (purls : Option (List String))
        (kvs : List (String × JVal)),
        pyTruthyOptList purls = true → lookupKey kvs "campaignId" = none →
          ∃ locs, (client.generate purls none none none none none
              { status := 200, body := .decoded (.jobj kvs) }).2.2 =
            .error (.pydanticValidationError locs) ∧ "campaignId" ∈ locs)
    ∧ (∀ locs, (SDKError.pydanticValidationError locs).isAMPEmailError = false)
    ∧ (∀ m, (SDKError.ampEmailError m).isAMPEmailError = true)
    ∧ (∀ m, (SDKError.authenticationError m).isAMPEmailError = true)
    ∧ (∀ m, (SDKError.rateLimitError m).isAMPEmailError = true) := by
  have hCamp : ∀ f ∈ (["campaignId", "templates", "previewUrls", "cost",
      "metadata"] : List String),
      ∀ kvs : List (String × JVal), lookupKey kvs f = none →
        ∃ locs, Campaign.validate kvs = .error locs ∧ f ∈ locs := by
    intro f hf kvs hmiss
    simp only [List.mem_cons, List.not_mem_nil, or_false] at hf
    rcases hf with rfl | rfl | rfl | rfl | rfl
    · exact failsWith_vseq_left _ (failsWith_vseq_left _ (failsWith_vseq_left _
        (failsWith_vseq_left _ (failsWith_vseq_right _
          ⟨["campaignId"], by simp [reqField, hmiss], by simp⟩))))
    · exact failsWith_vseq_left _ (failsWith_vseq_left _ (failsWith_vseq_left _
        (failsWith_vseq_right _ ⟨["templates"], by simp [templatesField, hmiss], by simp⟩)))
    · exact failsWith_vseq_left _ (failsWith_vseq_left _ (failsWith_vseq_right _
        ⟨["previewUrls"], by simp [reqField, hmiss], by simp⟩))
    · exact failsWith_vseq_left _ (failsWith_vseq_right _
        ⟨["cost"], by simp [reqField, hmiss], by simp⟩)
    · exact failsWith_vseq_right _ ⟨["metadata"], by simp [reqField, hmiss], by simp⟩
  have hTempl : ∀ f ∈ (["id", "variationName", "ampUrl", "fallbackUrl", "content",
      "mergeTags"] : List String),
      ∀ tkvs : List (String × JVal), lookupKey tkvs f = none →
        ∃ locs, Template.validate tkvs = .error locs ∧ f ∈ locs := by
    intro f hf tkvs hmiss
    simp only [List.mem_cons, List.not_mem_nil, or_false] at hf
    rcases hf with rfl | rfl | rfl | rfl | rfl | rfl
    · exact failsWith_vseq_left _ (failsWith_vseq_left _ (failsWith_vseq_left _
        (failsWith_vseq_left _ (failsWith_vseq_left _ (failsWith_vseq_right _
          ⟨["id"], by simp [reqField, hmiss], by simp⟩)))))
    · exact failsWith_vseq_left _ (failsWith_vseq_left _ (failsWith_vseq_left _
        (failsWith_vseq_left _ (failsWith_vseq_right _
          ⟨["variationName"], by simp [reqField, hmiss], by simp⟩))))
    · exact failsWith_vseq_left _ (failsWith_vseq_left _ (failsWith_vseq_left _
        (failsWith_vseq_right _ ⟨["ampUrl"], by simp [reqField, hmiss], by simp⟩)))
    · exact failsWith_vseq_left _ (failsWith_vseq_left _ (failsWith_vseq_right _
        ⟨["fallbackUrl"], by simp [reqField, hmiss], by simp⟩))
    · exact failsWith_vseq_left _ (failsWith_vseq_right _
        ⟨["content"], by simp [reqField, hmiss], by simp⟩)
    · exact failsWith_vseq_right _ ⟨["mergeTags"], by simp [reqField, hmiss], by simp⟩
  refine ⟨hCamp, hTempl, ?_, ?_, ?_, rfl, rfl, ?_, fun locs => rfl, fun m => rfl,
    fun m => rfl, fun m => rfl⟩
  · intro f hf kvs tkvs pre post hmiss htem
    obtain ⟨locs0, hval, hfm⟩ := hTempl f hf tkvs hmiss
    obtain ⟨locs1, h1, hm1⟩ := validateTemplates_elem_fails tkvs f locs0 hval hfm pre post 0
    rw [Nat.zero_add] at hm1
    have h2 : templatesField kvs = .error locs1 := by
      simp [templatesField, htem, h1]
    exact failsWith_vseq_left _ (failsWith_vseq_left _ (failsWith_vseq_left _
      (failsWith_vseq_right _ ⟨locs1, h2, hm1⟩)))
  · intro k v kvs hextra
    simp only [List.mem_cons, List.not_mem_nil, or_false, not_or] at hextra
    obtain ⟨h1, h2, h3, h4, h5⟩ := hextra
    simp [Campaign.validate, reqField, templatesField, lookupKey, h1, h2, h3, h4, h5]
  · intro k v tkvs hextra
    simp only [List.mem_cons, List.not_mem_nil, or_false, not_or] at hextra
    obtain ⟨h1, h2, h3, h4, h5, h6⟩ := hextra
    simp [Template.validate, reqField, lookupKey, h1, h2, h3, h4, h5, h6]
  · intro client purls kvs hp hmiss
    obtain ⟨locs, hval, hm⟩ := hCamp "campaignId" (by simp) kvs hmiss
    exact ⟨locs, by simp [AMPEmailClient.generate, hp, handleResponse, hval], hm⟩

/-- C6 witness: the theorem applied at concrete inputs — a campaign body
missing `campaignId`, a template body missing `id`, and a campaign body
whose only template element misses `id`, named at `templates.0.id`. -/
theorem response_model_decode_strictness_witness :
    (∃ locs, Campaign.validate [("extra", .jnull)] = .error locs ∧ "campaignId" ∈ locs)
    ∧ (∃ locs, Template.validate [] = .error locs ∧ "id" ∈ locs)
    ∧ (∃ locs, Campaign.validate
          [("campaignId", .jstr "c1"), ("templates", .jarr [.jobj []])] = .error locs
        ∧ ("templates." ++ toString 0 ++ "." ++ "id") ∈ locs) :=
  ⟨response_model_decode_strictness.1 "campaignId" (by simp) [("extra", .jnull)] rfl,
   response_model_decode_strictness.2.1 "id" (by simp) [] rfl,
   response_model_decode_strictness.2.2.1 "id" (by simp)
     [("campaignId", .jstr "c1"), ("templates", .jarr [.jobj []])] [] [] [] rfl rfl⟩

/-- C3 counterexample: a `Product` constructed with no field set serializes
with the never-set `id` key present (as JSON null), and the mapping is
identical to that of a product constructed with `id=None` explicitly;
moreover a `UserContext` serializes its aliased field under the snake_case
attribute name `first_name`, not its declared wire name `firstName`. -/
theorem serialization_keeps_unset_fields :
    (∃ p, Product.validate [] = .ok p ∧ lookupKey p.dict "id" = some .jnull)
    ∧ Product.validate [] = Product.validate [("id", .jnull)]
    ∧ (∃ u, UserContext.validate [("firstName", .jstr "John")] = .ok u
        ∧ lookupKey u.dict "firstName" = none
        ∧ lookupKey u.dict "first_name" = some (.jstr "John")) :=
  ⟨⟨_, rfl, rfl⟩, rfl, ⟨_, rfl, rfl, rfl⟩⟩

/-- C3 (amended): `.dict()` serialization of every request-side model maps
every field — set or not — under its snake_case attribute name (declared
camelCase aliases are not applied, `by_alias` being left `False`), with
never-set fields carrying their defaults; consequently an absent optional
field and one explicitly set to `None` produce identical serialized
mappings. -/
theorem serialization_uses_attribute_names (p : Product) (u : UserContext)
    (b : BrandContext) (o : GenerationOptions) (c : CampaignContext) :
    p.dict.map Prod.fst =
      ["id", "name", "price", "currency", "image", "url", "description", "brand"]
    ∧ u.dict.map Prod.fst = ["first_name", "last_name", "email", "custom_fields"]
    ∧ b.dict.map Prod.fst = ["voice", "colors", "logo", "company_name"]
    ∧ o.dict.map Prod.fst = ["variations", "preserve_merge_tags"]
    ∧ c.dict.map Prod.fst = ["type", "goal", "urgency", "discount"]
    ∧ Product.validate [] = Product.validate [("id", .jnull)] :=
  ⟨rfl, rfl, rfl, rfl, rfl, rfl⟩

/-- C2: the round-trip law fails on the code for aliased models. A
`UserContext` built with its wire name `firstName="John"` holds
`first_name="John"`; its `.dict()` serialization (the representation
`generate` transmits) exposes no `firstName` key, and re-validating that
serialized mapping — the model's own deserialization — yields a
`UserContext` with `first_name=None`, not an object equal to the original.
`models.py` declares the camelCase aliases as the wire contract, while
`client.py` serializes with plain `.dict()`; the SDK cannot decode its own
serialization. -/
theorem usercontext_roundtrip_loses_first_name :
    UserContext.validate [("firstName", .jstr "John")] = .ok userEx
    ∧ userEx.first_name = some "John"
    ∧ lookupKey userEx.dict "firstName" = none
    ∧ UserContext.validate userEx.dict =
        .ok { first_name := none, last_name := none, email := none, custom_fields := none }
    ∧ (none : Option String) ≠ some "John" :=
  ⟨rfl, rfl, rfl, rfl, by simp⟩

end AmpEmail
